import Mathlib

/-!
Shallow embedding of the LetMommyIn device-session core:

* server credential store and hub               (src/server/app.py)
* server websocket handshake                    (src/server/app.py, ws_endpoint)
* client reconnect loop backoff                 (src/client/client.py, run_client)
* client session sequencer                      (src/client/session_runner.py)

Timestamps (from time.time() / int(time.time())) are modelled as Nat,
supplied explicitly as a `now` argument.  The SHA-256 hash function is
modelled as an arbitrary function `hash : String → String`; the code only
ever compares hashes for equality.
-/

namespace LMI

/-- Python `str.strip()`: drop leading and trailing whitespace. -/
def pyStrip (s : String) : String :=
  ⟨((s.data.dropWhile Char.isWhitespace).reverse.dropWhile
      Char.isWhitespace).reverse⟩

/-- Python truthiness of an optional string: `if s:` is true iff the value
is present and non-empty. -/
def pyTruthy : Option String → Bool
  | none => false
  | some s => s != ""

/-- Python dict assignment `d[k] = v`: replaces the value in place if the key
exists, otherwise appends at the end (insertion order preserved). -/
def dictSet (l : List (String × α)) (k : String) (v : α) : List (String × α) :=
  if (l.lookup k).isSome then
    l.map fun p => if p.1 == k then (k, v) else p
  else l ++ [(k, v)]

/-- Python `d.pop(k, None)`: removes the entry for `k` if present. -/
def dictPop (l : List (String × α)) (k : String) : List (String × α) :=
  l.filter fun p => p.1 != k

/-! ## Credential store (src/server/app.py, sqlite tables) -/

/-- A row of the `enroll_codes` table. -/
structure EnrollRow where
  code_hash : String
  expires_at : Nat
  used_at : Option Nat
  created_at : Nat
deriving DecidableEq, Repr

/-- The WHERE clause of consume_enroll_code:
`code_hash = ? AND used_at IS NULL AND expires_at >= ?` (with `?` = now). -/
def consumeMatches (hash : String → String) (now : Nat) (raw : String)
    (r : EnrollRow) : Bool :=
  r.code_hash == hash raw && r.used_at == none && decide (now ≤ r.expires_at)

/-- consume_enroll_code(raw_code): a single conditional UPDATE setting
`used_at = now` on every row matched by `consumeMatches`; returns
`rowcount == 1` together with the updated table. -/
def consume_enroll_code (hash : String → String) (now : Nat) (raw : String)
    (t : List EnrollRow) : Bool × List EnrollRow :=
  let m := consumeMatches hash now raw
  (t.countP m == 1,
   t.map fun r => if m r then { r with used_at := some now } else r)

/-- A row of the `devices` table. -/
structure DeviceRow where
  device_id : String
  token_hash : String
  created_at : Nat
  last_seen : Option Nat
  username : Option String
  device_name : Option String
deriving DecidableEq, Repr

/-- get_device_id_for_token: `SELECT device_id FROM devices WHERE token_hash = ?`
(first matching row, if any). -/
def get_device_id_for_token (hash : String → String) (t : List DeviceRow)
    (device_token : String) : Option String :=
  (t.find? fun r => r.token_hash == hash device_token).map (·.device_id)

/-- device_exists: `SELECT 1 FROM devices WHERE device_id = ?`. -/
def device_exists (t : List DeviceRow) (device_id : String) : Bool :=
  (t.find? fun r => r.device_id == device_id).isSome

/-- create_device: INSERT of a fresh row with `last_seen = created_at = now`. -/
def create_device (hash : String → String) (now : Nat) (t : List DeviceRow)
    (device_id device_token : String) (username device_name : Option String) :
    List DeviceRow :=
  t ++ [{ device_id := device_id, token_hash := hash device_token,
          created_at := now, last_seen := some now,
          username := username, device_name := device_name }]

/-- update_device_metadata: with allow_identity_change the UPDATE also sets
`username = COALESCE(?, username)` and `device_name = COALESCE(?, device_name)`;
without it only `last_seen` is written. -/
def update_device_metadata (now : Nat) (t : List DeviceRow) (device_id : String)
    (username device_name : Option String) (allow_identity_change : Bool) :
    List DeviceRow :=
  if allow_identity_change then
    t.map fun r =>
      if r.device_id == device_id then
        { r with last_seen := some now,
                 username := username.orElse fun _ => r.username,
                 device_name := device_name.orElse fun _ => r.device_name }
      else r
  else
    t.map fun r =>
      if r.device_id == device_id then { r with last_seen := some now } else r

/-! ## Device Registry (Hub) (src/server/app.py, class Hub) -/

def MAX_LOG_EVENTS : Nat := 1000

def PROTOCOL_VERSION : String := "v0.1"

/-- In-memory per-device record held by the hub (class DeviceInfo). -/
structure DeviceInfo where
  device_id : String
  username : String
  device_name : String
  version : String
  connected_at : Nat
  last_seen : Nat
deriving DecidableEq, Repr

/-- One entry of the hub's rolling event log (class LogEvent). -/
structure LogEvent where
  ts : Nat
  device_id : String
  event : String
  detail : String
  command_id : String
deriving DecidableEq, Repr

/-- `logs.append(e)` followed by `if len(logs) > MAX_LOG_EVENTS: logs.pop(0)`. -/
def appendBounded (logs : List LogEvent) (e : LogEvent) : List LogEvent :=
  let l := logs ++ [e]
  if MAX_LOG_EVENTS < l.length then l.drop 1 else l

/-- The hub state: connection map (websocket handles as Nat), device map,
event log, and the process-wide last-command timestamp. -/
structure Hub where
  connections : List (String × Nat)
  devices : List (String × DeviceInfo)
  logs : List LogEvent
  last_command_ts : Option Nat
deriving DecidableEq, Repr

def Hub.empty : Hub := ⟨[], [], [], none⟩

/-- Hub.register: store the session and device record, append a connect event. -/
def Hub.register (h : Hub) (now : Nat) (device : DeviceInfo) (ws : Nat) : Hub :=
  { h with
    connections := dictSet h.connections device.device_id ws
    devices := dictSet h.devices device.device_id device
    logs := appendBounded h.logs
      { ts := now, device_id := device.device_id, event := "connect",
        detail := device.username ++ " @ " ++ device.device_name,
        command_id := "-" } }

/-- Hub.unregister: pop the connection; append a disconnect event when the
device id is known to the devices map. -/
def Hub.unregister (h : Hub) (now : Nat) (device_id : String) : Hub :=
  let conns := dictPop h.connections device_id
  match h.devices.lookup device_id with
  | some dev =>
      { h with
        connections := conns
        logs := appendBounded h.logs
          { ts := now, device_id := device_id, event := "disconnect",
            detail := dev.username ++ " @ " ++ dev.device_name,
            command_id := "-" } }
  | none => { h with connections := conns }

/-- Hub.update_last_seen: refresh the in-memory record when present. -/
def Hub.update_last_seen (h : Hub) (now : Nat) (device_id : String) : Hub :=
  { h with devices := h.devices.map fun p =>
      if p.1 == device_id then (p.1, { p.2 with last_seen := now }) else p }

/-- Hub.log: append an event; a "sent" event also bumps last_command_ts. -/
def Hub.log (h : Hub) (now : Nat) (device_id : String) (event : String)
    (detail : String) (command_id : String) : Hub :=
  let h1 := if event == "sent" then { h with last_command_ts := some now } else h
  { h1 with
    logs := appendBounded h1.logs
      { ts := now, device_id := device_id, event := event,
        detail := detail, command_id := command_id } }

/-- The fields the ack handler reads from the incoming JSON message. -/
structure AckMsg where
  id : Option String
  status : Option String
  detail : Option String
deriving DecidableEq, Repr

/-- Hub.handle_ack: log an ack event with status and detail merged. -/
def Hub.handle_ack (h : Hub) (now : Nat) (device_id : String) (msg : AckMsg) : Hub :=
  let cmd_id := msg.id.getD "-"
  let status := msg.status.getD "ack"
  let detail := msg.detail.getD ""
  h.log now device_id "ack" (pyStrip (status ++ " " ++ detail)) cmd_id

/-- One item of the GET /devices listing. -/
structure DeviceItem where
  device_id : String
  username : String
  device_name : String
  version : String
  connected_at : Nat
  last_seen : Nat
  online : Bool
deriving DecidableEq, Repr

/-- The sort key `(not online, -last_seen)` compared ascending. -/
def deviceItemKeyLe (a b : DeviceItem) : Bool :=
  decide ((!a.online) < (!b.online)) ||
    ((!a.online) == (!b.online) && decide ((-(a.last_seen : Int)) ≤ (-(b.last_seen : Int))))

/-- get_devices: one item per devices-map entry, online iff a connection
exists, sorted online-first then most-recently-seen first. -/
def get_devices (h : Hub) : List DeviceItem :=
  (h.devices.map fun p =>
    { device_id := p.2.device_id, username := p.2.username,
      device_name := p.2.device_name, version := p.2.version,
      connected_at := p.2.connected_at, last_seen := p.2.last_seen,
      online := (h.connections.lookup p.2.device_id).isSome }).mergeSort
    deviceItemKeyLe

/-! ## Websocket handshake (src/server/app.py, ws_endpoint, lines 679-771) -/

/-- The fields ws_endpoint reads from the first JSON message.  A present
field is the string value; an absent key is `none` (msg.get default). -/
structure HelloMsg where
  type_ : Option String
  device_id : Option String
  username : Option String
  device_name : Option String
  version : Option String
  protocol : Option String
deriving DecidableEq, Repr

/-- How the handshake phase of a connection ends. -/
inductive WsOutcome where
  /-- close(1008) issued before the first receive (bad query parameters,
  unknown token, or failed enrollment-code consumption). -/
  | closedPreHello
  /-- close(1008) issued after reading the hello, before registration. -/
  | closedPostHello
  /-- the session was registered with the hub: the Registered state. -/
  | registered (dev : DeviceInfo)
deriving DecidableEq, Repr

/-- The two persisted tables. -/
structure ServerDB where
  enroll_codes : List EnrollRow
  devices : List DeviceRow
deriving DecidableEq, Repr

structure HandshakeResult where
  outcome : WsOutcome
  db : ServerDB
  /-- the raw token carried by an enroll_ok reply, when one was sent -/
  enroll_ok_token : Option String
deriving DecidableEq, Repr

/-- The handshake phase of ws_endpoint, up to hub registration: query-param
checks, token resolution, enrollment-code consumption, the hello checks and
the enrollment/reconnection branch.  `new_token` stands for the random
generate_device_token() result, used only on the enrollment path. -/
def ws_handshake (hash : String → String) (now : Nat) (db : ServerDB)
    (device_token enroll_code : Option String) (hello : HelloMsg)
    (new_token : String) : HandshakeResult :=
  -- if (device_token is None) == (enroll_code is None): close(1008)
  if device_token.isNone == enroll_code.isNone then
    { outcome := .closedPreHello, db := db, enroll_ok_token := none }
  else
    -- if device_token:  (Python truthiness, not an `is None` test)
    let expected_device_id : Option String :=
      if pyTruthy device_token then
        get_device_id_for_token hash db.devices (device_token.getD "")
      else none
    if pyTruthy device_token && expected_device_id.isNone then
      { outcome := .closedPreHello, db := db, enroll_ok_token := none }
    else
      -- if enroll_code:  (Python truthiness again)
      let consumed :=
        if pyTruthy enroll_code then
          consume_enroll_code hash now (enroll_code.getD "") db.enroll_codes
        else (true, db.enroll_codes)
      let db := { db with enroll_codes := consumed.2 }
      if pyTruthy enroll_code && !consumed.1 then
        { outcome := .closedPreHello, db := db, enroll_ok_token := none }
      else
        -- first message must be a hello
        if hello.type_ != some "hello" then
          { outcome := .closedPostHello, db := db, enroll_ok_token := none }
        else
          let device_id := pyStrip (hello.device_id.getD "")
          let username := pyStrip (hello.username.getD "")
          let device_name := pyStrip (hello.device_name.getD "")
          let version := pyStrip (hello.version.getD "v0.0")
          let protocol := pyStrip (hello.protocol.getD "v0.0")
          if protocol != PROTOCOL_VERSION then
            { outcome := .closedPostHello, db := db, enroll_ok_token := none }
          else if device_id == "" || username == "" then
            { outcome := .closedPostHello, db := db, enroll_ok_token := none }
          else if expected_device_id.isSome && expected_device_id != some device_id then
            { outcome := .closedPostHello, db := db, enroll_ok_token := none }
          else if enroll_code.isSome then
            -- Enrollment path (`enroll_code is not None`)
            if device_exists db.devices device_id then
              { outcome := .closedPostHello, db := db, enroll_ok_token := none }
            else
              let devs := create_device hash now db.devices device_id new_token
                (some username) (some device_name)
              let devs := update_device_metadata now devs device_id
                (some username) (some device_name) true
              { outcome := .registered
                  { device_id := device_id, username := username,
                    device_name := if device_name == "" then "unknown" else device_name,
                    version := version, connected_at := now, last_seen := now },
                db := { db with devices := devs },
                enroll_ok_token := some new_token }
          else
            -- Reconnection path: update_device_metadata without identity change
            let devs := update_device_metadata now db.devices device_id
              (some username) (some device_name) false
            { outcome := .registered
                { device_id := device_id, username := username,
                  device_name := if device_name == "" then "unknown" else device_name,
                  version := version, connected_at := now, last_seen := now },
              db := { db with devices := devs },
              enroll_ok_token := none }

/-! ## Client reconnect loop backoff (src/client/client.py, run_client)

The loop keeps one mutable `delay`.  Inside `async with websockets.connect`
the very first statements are an emit and `delay = 2` ("Reset backoff on
successful connect"), so the reset runs as soon as the socket opens, before
the hello is even sent.  The generic exception handler sleeps `delay`
seconds and then sets `delay = min(max_delay, delay * 2)`. -/

def BASE_DELAY : Nat := 2
def MAX_DELAY : Nat := 30

/-- What happened inside one iteration of the reconnect loop that did not
terminate the client. -/
inductive CycleEvent where
  /-- websockets.connect itself raised: the reset line never ran. -/
  | noOpen
  /-- the socket opened (the `delay = 2` line ran) but the cycle then
  failed during or right after the hello exchange, before Live. -/
  | openNoLive
  /-- the socket opened, the session reached Live, and failed later. -/
  | openLive
deriving DecidableEq, Repr

structure ReconnectState where
  delay : Nat
deriving DecidableEq, Repr

/-- One failed cycle of run_client: returns the next state and the number of
seconds slept before the retry.  In the two open cases the reset to
BASE_DELAY has already run by the time the exception handler sleeps. -/
def runCycle (s : ReconnectState) (c : CycleEvent) : ReconnectState × Nat :=
  let current : Nat :=
    match c with
    | .noOpen => s.delay
    | .openNoLive => BASE_DELAY
    | .openLive => BASE_DELAY
  (⟨min MAX_DELAY (current * 2)⟩, current)

/-- The waits slept over a run of consecutive failed cycles. -/
def runCycles (s : ReconnectState) : List CycleEvent → List Nat
  | [] => []
  | c :: cs =>
      let r := runCycle s c
      r.2 :: runCycles r.1 cs

/-! ## Session sequencer (src/client/session_runner.py, class SessionRunner) -/

def DEFAULT_SESSION_TIMER_MS : ℚ := 8000

/-- A step as the sequencer sees it: a command-shaped dict with an optional
`timer_s` pacing value (seconds). -/
structure Step where
  type_ : String
  timer_s : Option ℚ
deriving DecidableEq, Repr

/-- Python `int(...)` on a rational: truncation toward zero. -/
def pyInt (q : ℚ) : Int := if q < 0 then Int.ceil q else Int.floor q

/-- `delay_ms = int(float(timer_s) * 1000)` followed by the clamp
`if delay_ms < 0: delay_ms = 0`. -/
def delayMsOf (timer_s : ℚ) : Int :=
  let d := pyInt (timer_s * 1000)
  if d < 0 then 0 else d

/-- The sequencer state.  `timer = some d` models a started single-shot
QTimer with a d-millisecond delay; `none` a stopped timer. -/
structure SRState where
  active : Bool
  paused : Bool
  session_id : Option String
  steps : List Step
  i : Nat
  timer : Option Int
deriving DecidableEq, Repr

def SRState.idle : SRState :=
  { active := false, paused := false, session_id := none,
    steps := [], i := 0, timer := none }

/-- SessionRunner.cancel: stop the timer, drop the session. -/
def SRState.cancel (_ : SRState) : SRState := SRState.idle

/-- SessionRunner.pause: set the flag and stop the timer. -/
def SRState.pause (s : SRState) : SRState :=
  { s with paused := true, timer := none }

/-- SessionRunner.resume: when a session is active, clear the flag and start
the timer with a zero delay. -/
def SRState.resume (s : SRState) : SRState :=
  if !s.active then s else { s with paused := false, timer := some 0 }

/-- The effective pacing of a step: its explicit timer_s, or the default. -/
def effTimer (st : Step) : ℚ := st.timer_s.getD (DEFAULT_SESSION_TIMER_MS / 1000)

/-- The shallow copy of a step handed to the dispatch function: when the
step has no explicit timer_s the effective default is written into it. -/
def withEffectiveTimer (st : Step) : Step :=
  match st.timer_s with
  | none => { st with timer_s := some (DEFAULT_SESSION_TIMER_MS / 1000) }
  | some _ => st

/-- SessionRunner._run_next_step: returns the new state and the step handed
to the dispatch function, if any. -/
def SRState.run_next_step (s : SRState) : SRState × Option Step :=
  if s.paused then (s, none)
  else if !s.active then (s, none)
  else if h : s.steps.length ≤ s.i then (s.cancel, none)
  else
    let step0 := s.steps.get ⟨s.i, by omega⟩
    let step := withEffectiveTimer step0
    let s' := { s with i := s.i + 1, timer := some (delayMsOf (effTimer step0)) }
    (s', some step)

/-- SessionRunner.start: cancel any prior session, install the new one, and
run the first step immediately. -/
def SRState.start (s : SRState) (session_id : String) (steps : List Step) :
    SRState × Option Step :=
  let s1 := s.cancel
  let s2 := { s1 with active := true, session_id := some session_id,
                      steps := steps, i := 0 }
  s2.run_next_step

/-- The single-shot timer firing: the timer is consumed and the timeout
handler `_run_next_step` runs. -/
def SRState.fireTimer (s : SRState) : SRState × Option Step :=
  SRState.run_next_step { s with timer := none }

/-- A sequence of further consume_enroll_code calls (each with its own
`now` clock value and raw code), folded over the table. -/
def consumeSeq (hash : String → String) (t : List EnrollRow) :
    List (Nat × String) → List EnrollRow
  | [] => t
  | c :: cs => consumeSeq hash (consume_enroll_code hash c.1 c.2 t).2 cs

/-- No row of the table still carries `used_at = NULL` for this code's hash. -/
def noUnusedRow (hash : String → String) (raw : String)
    (t : List EnrollRow) : Prop :=
  ∀ r ∈ t, r.code_hash = hash raw → r.used_at ≠ none

end LMI

namespace LMI

/-! ## Theorems -/

/-! ### Helper lemmas about the dict and ring-buffer primitives -/

theorem beqT {a b : String} (h : a = b) : (a == b) = true := by simp [h]

theorem beqF {a b : String} (h : ¬a = b) : (a == b) = false := by simp [h]

theorem bneT {a b : String} (h : ¬a = b) : (a != b) = true := by simp [h]

theorem bneF {a b : String} (h : a = b) : (a != b) = false := by simp [h]

theorem appendBounded_length_le (l : List LogEvent) (e : LogEvent)
    (h : l.length ≤ MAX_LOG_EVENTS) :
    (appendBounded l e).length ≤ MAX_LOG_EVENTS := by
  simp only [appendBounded]
  split <;> simp_all

theorem appendBounded_full (l : List LogEvent) (e : LogEvent)
    (h : l.length = MAX_LOG_EVENTS) :
    appendBounded l e = l.drop 1 ++ [e] := by
  cases l with
  | nil => simp [MAX_LOG_EVENTS] at h
  | cons x t =>
      simp only [appendBounded]
      rw [if_pos]
      · rfl
      · simp only [List.length_cons] at h
        simp only [List.cons_append, List.length_cons, List.length_append,
          List.length_nil]
        omega

theorem lookup_dictPop_self (l : List (String × α)) (k : String) :
    (dictPop l k).lookup k = none := by
  induction l with
  | nil => rfl
  | cons p t ih =>
      by_cases hp : p.1 = k
      · have hf : (p.1 != k) = false := by simp [hp]
        simpa [dictPop, List.filter_cons, hf] using ih
      · have hf : (p.1 != k) = true := by simp [hp]
        have hb : (k == p.1) = false := beqF (Ne.symm hp)
        simp only [dictPop, List.filter_cons, hf, if_true, List.lookup, hb]
        simpa [dictPop] using ih

theorem dictPop_idem (l : List (String × α)) (k : String) :
    dictPop (dictPop l k) k = dictPop l k := by
  simp [dictPop, List.filter_filter]

theorem lookup_none_dictPop (l : List (String × α)) (k : String)
    (h : l.lookup k = none) : dictPop l k = l := by
  induction l with
  | nil => rfl
  | cons p t ih =>
      by_cases hp : k = p.1
      · have hb : (k == p.1) = true := by simp [hp]
        simp [List.lookup, hb] at h
      · have hb : (k == p.1) = false := by simp [hp]
        simp only [List.lookup, hb] at h
        have hf : (p.1 != k) = true := bneT (Ne.symm hp)
        simp only [dictPop, List.filter_cons, hf, if_true]
        exact congrArg (List.cons p) (ih h)

theorem lookup_mem {l : List (String × α)} {k : String} {v : α}
    (h : l.lookup k = some v) : (k, v) ∈ l := by
  induction l with
  | nil => simp at h
  | cons p t ih =>
      by_cases hp : k = p.1
      · have hb : (k == p.1) = true := by simp [hp]
        simp only [List.lookup, hb] at h
        rw [List.mem_cons]
        refine Or.inl ?_
        rw [hp, ← Option.some.inj h]
      · have hb : (k == p.1) = false := by simp [hp]
        simp only [List.lookup, hb] at h
        exact List.mem_cons_of_mem _ (ih h)

theorem lookup_map_set (l : List (String × α)) (k : String) (v : α)
    (hs : (l.lookup k).isSome) :
    ((l.map fun p => if p.1 == k then (k, v) else p).lookup k) = some v := by
  induction l with
  | nil => simp at hs
  | cons p t ih =>
      by_cases hp : p.1 = k
      · rw [List.map_cons, if_pos (beqT hp)]
        simp [List.lookup]
      · simp only [List.lookup, beqF (Ne.symm hp)] at hs
        rw [List.map_cons, if_neg (by simp [hp])]
        simp only [List.lookup, beqF (Ne.symm hp)]
        exact ih hs

theorem lookup_map_set_ne (l : List (String × α)) (k k' : String) (v : α)
    (hne : k' ≠ k) :
    ((l.map fun p => if p.1 == k then (k, v) else p).lookup k') =
      l.lookup k' := by
  induction l with
  | nil => rfl
  | cons p t ih =>
      by_cases hp : p.1 = k
      · rw [List.map_cons, if_pos (beqT hp)]
        simp only [List.lookup, beqF hne, beqF (fun e => hne (e.trans hp))]
        exact ih
      · rw [List.map_cons, if_neg (by simp [hp])]
        by_cases hq : k' = p.1
        · simp [List.lookup, beqT hq]
        · simp only [List.lookup, beqF hq]
          exact ih

theorem lookup_append_one (l : List (String × α)) (k : String) (v : α)
    (hs : l.lookup k = none) : (l ++ [(k, v)]).lookup k = some v := by
  induction l with
  | nil => simp [List.lookup]
  | cons p t ih =>
      by_cases hp : k = p.1
      · simp [List.lookup, beqT hp] at hs
      · simp only [List.lookup, beqF hp] at hs
        simp only [List.cons_append, List.lookup, beqF hp]
        exact ih hs

theorem lookup_append_one_ne (l : List (String × α)) (k k' : String) (v : α)
    (hne : k' ≠ k) : ((l ++ [(k, v)]).lookup k') = l.lookup k' := by
  induction l with
  | nil => simp [List.lookup, beqF hne]
  | cons p t ih =>
      by_cases hp : k' = p.1
      · simp [List.cons_append, List.lookup, beqT hp]
      · simp only [List.cons_append, List.lookup, beqF hp]
        exact ih

theorem lookup_dictSet_self (l : List (String × α)) (k : String) (v : α) :
    (dictSet l k v).lookup k = some v := by
  unfold dictSet
  split
  · next hs => exact lookup_map_set l k v hs
  · next hs =>
      refine lookup_append_one l k v ?_
      cases he : l.lookup k with
      | none => rfl
      | some w => rw [he] at hs; simp at hs

theorem lookup_dictSet_isSome (l : List (String × α)) (k k' : String) (v : α)
    (h : (l.lookup k').isSome) : ((dictSet l k v).lookup k').isSome := by
  by_cases hk : k' = k
  · subst hk
    simp [lookup_dictSet_self]
  · unfold dictSet
    split
    · rw [lookup_map_set_ne l k k' v hk]
      exact h
    · rw [lookup_append_one_ne l k k' v hk]
      exact h

theorem hub_log_logs (h : Hub) (now : Nat) (did ev det cid : String) :
    (h.log now did ev det cid).logs =
      appendBounded h.logs ⟨now, did, ev, det, cid⟩ := by
  unfold Hub.log
  split <;> rfl

theorem hub_log_devices (h : Hub) (now : Nat) (did ev det cid : String) :
    (h.log now did ev det cid).devices = h.devices := by
  unfold Hub.log
  split <;> rfl

theorem hub_unregister_devices (h : Hub) (now : Nat) (did : String) :
    (h.unregister now did).devices = h.devices := by
  unfold Hub.unregister
  split <;> rfl

theorem hub_unregister_connections (h : Hub) (now : Nat) (did : String) :
    (h.unregister now did).connections = dictPop h.connections did := by
  unfold Hub.unregister
  split <;> rfl

theorem hub_unregister_some (h : Hub) (now : Nat) (did : String)
    (dev : DeviceInfo) (hdev : h.devices.lookup did = some dev) :
    h.unregister now did =
      { h with
        connections := dictPop h.connections did
        logs := appendBounded h.logs
          { ts := now, device_id := did, event := "disconnect",
            detail := dev.username ++ " @ " ++ dev.device_name,
            command_id := "-" } } := by
  unfold Hub.unregister
  rw [hdev]

theorem lookup_map_touch (l : List (String × DeviceInfo)) (k k2 : String)
    (now : Nat) :
    ((l.map fun p =>
        if p.1 == k2 then (p.1, { p.2 with last_seen := now }) else p).lookup
      k).isSome = (l.lookup k).isSome := by
  induction l with
  | nil => rfl
  | cons p t ih =>
      by_cases hp : p.1 = k2
      · rw [List.map_cons, if_pos (beqT hp)]
        by_cases hq : k = p.1
        · simp [List.lookup, beqT hq]
        · simp only [List.lookup, beqF hq]
          exact ih
      · rw [List.map_cons, if_neg (by simp [hp])]
        by_cases hq : k = p.1
        · simp [List.lookup, beqT hq]
        · simp only [List.lookup, beqF hq]
          exact ih

/-! ### Helper lemmas for the credential store -/

theorem two_le_countP {p : α → Bool} {l : List α} {a b : α}
    (ha : a ∈ l) (hb : b ∈ l) (hab : a ≠ b) (hpa : p a) (hpb : p b) :
    2 ≤ l.countP p := by
  induction l with
  | nil => simp at ha
  | cons x t ih =>
      rcases List.mem_cons.mp ha with h1 | h1
      · subst h1
        have hbt : b ∈ t := by
          rcases List.mem_cons.mp hb with h2 | h2
          · exact absurd h2.symm hab
          · exact h2
        have hpos : 0 < t.countP p := List.countP_pos_iff.mpr ⟨b, hbt, hpb⟩
        rw [List.countP_cons_of_pos _ _ hpa]
        omega
      · rcases List.mem_cons.mp hb with h2 | h2
        · subst h2
          have hpos : 0 < t.countP p := List.countP_pos_iff.mpr ⟨a, h1, hpa⟩
          rw [List.countP_cons_of_pos _ _ hpb]
          omega
        · have h3 := ih h1 h2
          cases hpx : p x
          · rw [List.countP_cons_of_neg _ _ (by simp [hpx])]
            exact h3
          · rw [List.countP_cons_of_pos _ _ hpx]
            omega

theorem countP_one_split {m : EnrollRow → Bool} {t : List EnrollRow}
    (h : t.countP m = 1) :
    ∃ a r b, t = a ++ r :: b ∧ m r = true ∧
      a.countP m = 0 ∧ b.countP m = 0 := by
  induction t with
  | nil => simp at h
  | cons x t ih =>
      cases hmx : m x
      · rw [List.countP_cons_of_neg _ _ (by simp [hmx])] at h
        obtain ⟨a, r, b, h1, h2, h3, h4⟩ := ih h
        refine ⟨x :: a, r, b, by rw [h1]; rfl, h2, ?_, h4⟩
        rw [List.countP_cons_of_neg _ _ (by simp [hmx])]
        exact h3
      · rw [List.countP_cons_of_pos _ _ hmx] at h
        have ht : t.countP m = 0 := by omega
        exact ⟨[], x, t, rfl, hmx, rfl, ht⟩

theorem map_consume_id {m : EnrollRow → Bool} {now : Nat}
    {l : List EnrollRow} (h : l.countP m = 0) :
    (l.map fun r => if m r then { r with used_at := some now } else r) = l := by
  induction l with
  | nil => rfl
  | cons x t ih =>
      have hx : m x = false := by
        cases hmx : m x
        · rfl
        · rw [List.countP_cons_of_pos _ _ hmx] at h
          omega
      rw [List.countP_cons_of_neg _ _ (by simp [hx])] at h
      rw [List.map_cons, if_neg (by simp [hx]), ih h]

theorem noUnused_after_consume (hash : String → String) (raw raw2 : String)
    (n2 : Nat) (t : List EnrollRow) (h : noUnusedRow hash raw t) :
    noUnusedRow hash raw (consume_enroll_code hash n2 raw2 t).2 := by
  intro r hr hhash
  simp only [consume_enroll_code] at hr
  obtain ⟨r0, hr0, hf⟩ := List.mem_map.mp hr
  by_cases hm : consumeMatches hash n2 raw2 r0
  · rw [if_pos hm] at hf
    rw [← hf]
    simp
  · rw [if_neg hm] at hf
    subst hf
    exact h r0 hr0 hhash

theorem noUnused_consumeSeq (hash : String → String) (raw : String)
    (calls : List (Nat × String)) (t : List EnrollRow)
    (h : noUnusedRow hash raw t) :
    noUnusedRow hash raw (consumeSeq hash t calls) := by
  induction calls generalizing t with
  | nil => exact h
  | cons c cs ih =>
      exact ih _ (noUnused_after_consume hash raw c.2 c.1 t h)

theorem consume_fails_of_noUnused (hash : String → String) (now : Nat)
    (raw : String) (t : List EnrollRow) (h : noUnusedRow hash raw t) :
    (consume_enroll_code hash now raw t).1 = false := by
  have hz : t.countP (consumeMatches hash now raw) = 0 := by
    rw [List.countP_eq_zero]
    intro r hr hm
    simp only [consumeMatches, Bool.and_eq_true, beq_iff_eq,
      decide_eq_true_eq] at hm
    exact absurd hm.1.2 (h r hr hm.1.1)
  simp [consume_enroll_code, hz]

theorem noUnused_of_success (hash : String → String) (now : Nat)
    (raw : String) (t : List EnrollRow)
    (huniq : t.countP (fun r => r.code_hash == hash raw) ≤ 1)
    (hs : (consume_enroll_code hash now raw t).1 = true) :
    noUnusedRow hash raw (consume_enroll_code hash now raw t).2 := by
  have hcount : t.countP (consumeMatches hash now raw) = 1 := beq_iff_eq.mp hs
  obtain ⟨rm, hrm, hmrm⟩ :=
    List.countP_pos_iff.mp
      (show 0 < t.countP (consumeMatches hash now raw) by omega)
  intro r hr hhash
  simp only [consume_enroll_code] at hr
  obtain ⟨r0, hr0, hf⟩ := List.mem_map.mp hr
  by_cases hm : consumeMatches hash now raw r0
  · rw [if_pos hm] at hf
    rw [← hf]
    simp
  · rw [if_neg hm] at hf
    subst hf
    intro hnone
    have hne : r0 ≠ rm := by
      intro e
      rw [e] at hm
      exact hm hmrm
    have hh0 : (r0.code_hash == hash raw) = true := by simp [hhash]
    have hhm : (rm.code_hash == hash raw) = true := by
      simp only [consumeMatches, Bool.and_eq_true] at hmrm
      exact hmrm.1.1
    have h2 := two_le_countP (p := fun r => r.code_hash == hash raw)
      hr0 hrm hne hh0 hhm
    omega

/-- **C1** (amended).  consume_enroll_code returns true iff exactly one
stored row matches its WHERE clause — hash equal, used_at NULL, and
unexpired under the code's NON-strict rule `expires_at >= now`; on success
exactly that row is marked used and every other row is untouched; and
under the table's UNIQUE(code_hash) constraint a code that was consumed
once can never be consumed again by any later sequence of calls. -/
theorem consume_enroll_code_spec (hash : String → String) (now : Nat)
    (raw : String) (t : List EnrollRow)
    (huniq : t.countP (fun r => r.code_hash == hash raw) ≤ 1) :
    ((consume_enroll_code hash now raw t).1 = true ↔
      t.countP (consumeMatches hash now raw) = 1) ∧
    ((consume_enroll_code hash now raw t).1 = true →
      ∃ a r b, t = a ++ r :: b ∧ consumeMatches hash now raw r = true ∧
        (consume_enroll_code hash now raw t).2 =
          a ++ { r with used_at := some now } :: b) ∧
    ((consume_enroll_code hash now raw t).1 = true →
      ∀ calls now2,
        (consume_enroll_code hash now2 raw
          (consumeSeq hash (consume_enroll_code hash now raw t).2
            calls)).1 = false) := by
  refine ⟨beq_iff_eq, ?_, ?_⟩
  · intro hs
    have hcount : t.countP (consumeMatches hash now raw) = 1 := beq_iff_eq.mp hs
    obtain ⟨a, r, b, hsplit, hm, ha0, hb0⟩ := countP_one_split hcount
    refine ⟨a, r, b, hsplit, hm, ?_⟩
    show (t.map fun r' => if consumeMatches hash now raw r' then
        { r' with used_at := some now } else r') = _
    rw [hsplit, List.map_append, List.map_cons, if_pos hm,
      map_consume_id ha0, map_consume_id hb0]
  · intro hs calls now2
    exact consume_fails_of_noUnused hash now2 raw _
      (noUnused_consumeSeq hash raw calls _
        (noUnused_of_success hash now raw t huniq hs))

/-- Witness for C1 (amended) on a one-row table with an unexpired unused
code. -/
theorem consume_enroll_code_spec_witness :
    ([(⟨"k", 10, none, 0⟩ : EnrollRow)].countP
      (fun r => r.code_hash == id "k") ≤ 1) ∧
    (((consume_enroll_code id 5 "k" [⟨"k", 10, none, 0⟩]).1 = true ↔
       [(⟨"k", 10, none, 0⟩ : EnrollRow)].countP
         (consumeMatches id 5 "k") = 1) ∧
     ((consume_enroll_code id 5 "k" [⟨"k", 10, none, 0⟩]).1 = true →
       ∃ a r b, [(⟨"k", 10, none, 0⟩ : EnrollRow)] = a ++ r :: b ∧
         consumeMatches id 5 "k" r = true ∧
         (consume_enroll_code id 5 "k" [⟨"k", 10, none, 0⟩]).2 =
           a ++ { r with used_at := some 5 } :: b) ∧
     ((consume_enroll_code id 5 "k" [⟨"k", 10, none, 0⟩]).1 = true →
       ∀ calls now2,
         (consume_enroll_code id now2 "k"
           (consumeSeq id
             (consume_enroll_code id 5 "k" [⟨"k", 10, none, 0⟩]).2
             calls)).1 = false)) := by
  constructor
  · decide
  · exact consume_enroll_code_spec id 5 "k" [⟨"k", 10, none, 0⟩] (by decide)

/-- **C2** (code bug evidence).  A connection presenting the query parameter
`device_token=` with an EMPTY value (and no enroll_code) is never closed
before the hello: Python's `if device_token:` skips token resolution, so
the unknown empty token is never looked up, and a well-formed hello then
reaches the Registered state with an empty server database. -/
theorem empty_device_token_reaches_registered :
    get_device_id_for_token id [] "" = none ∧
    (ws_handshake id 0 ⟨[], []⟩ (some "") none
        ⟨some "hello", some "d", some "u", none, none, some "v0.1"⟩
        "tok").outcome =
      WsOutcome.registered ⟨"d", "u", "unknown", "v0.0", 0, 0⟩ := by
  constructor
  · rfl
  · rfl

/-- **C3** (code bug evidence).  In a cycle where the socket opens but the
session never reaches Live, run_client has already reset the delay to the
base: with the backoff grown to 8s, the failed-handshake cycle sleeps only
BASE_DELAY = 2 seconds (not 8) and continues doubling from there. -/
theorem backoff_reset_on_socket_open :
    runCycle ⟨8⟩ CycleEvent.openNoLive = (⟨4⟩, BASE_DELAY) := by
  rfl

/-- **C5** (code bug evidence).  A maximal run of three consecutive failed
cycles in which the middle one opens the socket (but fails during the
handshake) sleeps 2, 2, 4 seconds — not the claimed 2, 4, 8 — because the
socket open resets the delay to base. -/
theorem backoff_sequence_counterexample :
    runCycles ⟨BASE_DELAY⟩
        [CycleEvent.noOpen, CycleEvent.openNoLive, CycleEvent.noOpen] =
      [2, 2, 4] ∧
    runCycles ⟨BASE_DELAY⟩
        [CycleEvent.noOpen, CycleEvent.openNoLive, CycleEvent.noOpen] ≠
      [2, 4, 8] := by
  constructor
  · rfl
  · decide

/-- **C1** (counterexample).  At the expiry boundary `now = expires_at` the
code still consumes the row and returns true, although no stored row is
unexpired under the claimed strict rule `now < expires_at`: consumption
succeeds while the number of strictly-unexpired matching rows is 0. -/
theorem consume_at_expiry_boundary :
    (consume_enroll_code id 100 "c" [⟨"c", 100, none, 0⟩]).1 = true ∧
    ([(⟨"c", 100, none, 0⟩ : EnrollRow)].countP
      (fun r => r.code_hash == "c" && r.used_at == none &&
        decide (100 < r.expires_at)) = 0) := by
  constructor
  · rfl
  · rfl

/-- **C4** (counterexample).  On the token reconnection path the stored
username is NOT updated: with a stored row carrying username "old" and a
valid hello carrying the non-empty username "new", the handshake registers
but the device row keeps username "old" (only last_seen moves to now). -/
theorem reconnect_keeps_stored_username :
    (ws_handshake id 10 ⟨[], [⟨"d", "T", 0, some 5, some "old", some "olddev"⟩]⟩
        (some "T") none
        ⟨some "hello", some "d", some "new", some "newdev", some "v0.1", some "v0.1"⟩
        "ntok").db.devices =
      [⟨"d", "T", 0, some 10, some "old", some "olddev"⟩] ∧
    (some "old" : Option String) ≠ some "new" := by
  constructor
  · rfl
  · decide

/-- The reconnect-path UPDATE (allow_identity_change = False) is a pure
last_seen touch. -/
theorem update_device_metadata_noid (now : Nat) (l : List DeviceRow)
    (did : String) (u dn : Option String) :
    update_device_metadata now l did u dn false =
      l.map fun r =>
        if r.device_id == did then { r with last_seen := some now } else r :=
  rfl

theorem map_touch_preserves_identity (l : List DeviceRow) (did : String)
    (now : Nat) :
    ((l.map fun r =>
        if r.device_id == did then { r with last_seen := some now } else r).map
      fun r => (r.token_hash, r.username, r.device_name, r.created_at)) =
      l.map fun r => (r.token_hash, r.username, r.device_name, r.created_at) := by
  induction l with
  | nil => rfl
  | cons x t ih =>
      by_cases hx : x.device_id = did
      · rw [List.map_cons, if_pos (beqT hx), List.map_cons, List.map_cons, ih]
      · rw [List.map_cons, if_neg (by simp [hx]), List.map_cons,
          List.map_cons, ih]

/-- **C4** (amended).  On the token reconnection path, after a valid hello
(matching token, correct protocol, non-empty identity fields) the server
registers the session but updates ONLY last_seen on the stored device row:
username, device_name, token_hash and created_at are all left unchanged —
in particular no new token is minted (no enroll_ok is sent and every
stored token hash is exactly as before). -/
theorem token_reconnect_updates_only_last_seen (hash : String → String)
    (now : Nat) (db : ServerDB) (tok new_token : String) (hello : HelloMsg)
    (htokT : tok ≠ "")
    (htok : get_device_id_for_token hash db.devices tok =
      some (pyStrip (hello.device_id.getD "")))
    (htype : hello.type_ = some "hello")
    (hproto : pyStrip (hello.protocol.getD "v0.0") = PROTOCOL_VERSION)
    (hid : pyStrip (hello.device_id.getD "") ≠ "")
    (huser : pyStrip (hello.username.getD "") ≠ "") :
    ∃ dev, (ws_handshake hash now db (some tok) none hello new_token).outcome =
        WsOutcome.registered dev ∧
      dev.device_id = pyStrip (hello.device_id.getD "") ∧
      (ws_handshake hash now db (some tok) none hello new_token).db.devices =
        db.devices.map (fun r =>
          if r.device_id == dev.device_id then { r with last_seen := some now }
          else r) ∧
      ((ws_handshake hash now db (some tok) none hello
          new_token).db.devices.map fun r =>
        (r.token_hash, r.username, r.device_name, r.created_at)) =
        (db.devices.map fun r =>
          (r.token_hash, r.username, r.device_name, r.created_at)) ∧
      (ws_handshake hash now db (some tok) none hello
        new_token).enroll_ok_token = none ∧
      (ws_handshake hash now db (some tok) none hello new_token).db.enroll_codes =
        db.enroll_codes := by
  have hres : ws_handshake hash now db (some tok) none hello new_token =
      { outcome := WsOutcome.registered
          { device_id := pyStrip (hello.device_id.getD ""),
            username := pyStrip (hello.username.getD ""),
            device_name :=
              if pyStrip (hello.device_name.getD "") == "" then "unknown"
              else pyStrip (hello.device_name.getD ""),
            version := pyStrip (hello.version.getD "v0.0"),
            connected_at := now, last_seen := now },
        db := { db with devices :=
                  (update_device_metadata now db.devices
                    (pyStrip (hello.device_id.getD ""))
                    (some (pyStrip (hello.username.getD "")))
                    (some (pyStrip (hello.device_name.getD ""))) false) },
        enroll_ok_token := none } := by
    simp only [ws_handshake, pyTruthy, htok, htype, hproto, hid, huser,
      htokT, Option.isNone_some, Option.isNone_none, Option.getD_some,
      Option.isSome_some, Option.isSome_none, bne_self_eq_false,
      Bool.false_and, Bool.and_false, Bool.true_and, Bool.and_true,
      Bool.false_eq_true, if_false, beqF hid, beqF huser, bneT htokT,
      Bool.or_self, Bool.not_false, Bool.and_self]
    simp [htype, hproto, hid, huser]
  refine ⟨_, by rw [hres], rfl, ?_, ?_, by rw [hres], by rw [hres]⟩
  · rw [hres]
    exact update_device_metadata_noid now db.devices
      (pyStrip (hello.device_id.getD ""))
      (some (pyStrip (hello.username.getD "")))
      (some (pyStrip (hello.device_name.getD "")))
  · rw [hres]
    show ((update_device_metadata now db.devices
        (pyStrip (hello.device_id.getD ""))
        (some (pyStrip (hello.username.getD "")))
        (some (pyStrip (hello.device_name.getD ""))) false).map
      fun r => (r.token_hash, r.username, r.device_name, r.created_at)) = _
    rw [update_device_metadata_noid]
    exact map_touch_preserves_identity db.devices
      (pyStrip (hello.device_id.getD "")) now

/-- Witness for C4 (amended): token reconnection of device "d" whose hello
carries fresh username "new"; only last_seen moves. -/
theorem token_reconnect_updates_only_last_seen_witness :
    (("T" : String) ≠ "") ∧
    (get_device_id_for_token id
        [⟨"d", "T", 0, some 5, some "old", some "olddev"⟩] "T" =
      some (pyStrip ((some "d").getD ""))) ∧
    ((⟨some "hello", some "d", some "new", some "newdev", some "v0.1",
        some "v0.1"⟩ : HelloMsg).type_ = some "hello") ∧
    (pyStrip ((some "v0.1").getD "v0.0") = PROTOCOL_VERSION) ∧
    (pyStrip ((some "d").getD "") ≠ "") ∧
    (pyStrip ((some "new").getD "") ≠ "") ∧
    (∃ dev,
      (ws_handshake id 10
          ⟨[], [⟨"d", "T", 0, some 5, some "old", some "olddev"⟩]⟩
          (some "T") none
          ⟨some "hello", some "d", some "new", some "newdev", some "v0.1",
            some "v0.1"⟩ "ntok").outcome = WsOutcome.registered dev ∧
      dev.device_id = pyStrip ((some "d").getD "") ∧
      (ws_handshake id 10
          ⟨[], [⟨"d", "T", 0, some 5, some "old", some "olddev"⟩]⟩
          (some "T") none
          ⟨some "hello", some "d", some "new", some "newdev", some "v0.1",
            some "v0.1"⟩ "ntok").db.devices =
        ([⟨"d", "T", 0, some 5, some "old", some "olddev"⟩] :
            List DeviceRow).map (fun r =>
          if r.device_id == dev.device_id then { r with last_seen := some 10 }
          else r) ∧
      ((ws_handshake id 10
          ⟨[], [⟨"d", "T", 0, some 5, some "old", some "olddev"⟩]⟩
          (some "T") none
          ⟨some "hello", some "d", some "new", some "newdev", some "v0.1",
            some "v0.1"⟩ "ntok").db.devices.map fun r =>
        (r.token_hash, r.username, r.device_name, r.created_at)) =
        (([⟨"d", "T", 0, some 5, some "old", some "olddev"⟩] :
            List DeviceRow).map fun r =>
          (r.token_hash, r.username, r.device_name, r.created_at)) ∧
      (ws_handshake id 10
          ⟨[], [⟨"d", "T", 0, some 5, some "old", some "olddev"⟩]⟩
          (some "T") none
          ⟨some "hello", some "d", some "new", some "newdev", some "v0.1",
            some "v0.1"⟩ "ntok").enroll_ok_token = none ∧
      (ws_handshake id 10
          ⟨[], [⟨"d", "T", 0, some 5, some "old", some "olddev"⟩]⟩
          (some "T") none
          ⟨some "hello", some "d", some "new", some "newdev", some "v0.1",
            some "v0.1"⟩ "ntok").db.enroll_codes = ([] : List EnrollRow)) := by
  refine ⟨by decide, rfl, rfl, rfl, by decide, by decide, ?_⟩
  exact token_reconnect_updates_only_last_seen id 10
    ⟨[], [⟨"d", "T", 0, some 5, some "old", some "olddev"⟩]⟩ "T" "ntok"
    ⟨some "hello", some "d", some "new", some "newdev", some "v0.1",
      some "v0.1"⟩ (by decide) rfl rfl rfl (by decide) (by decide)

/-- **C6** (counterexample).  Hub.unregister is not idempotent: on a hub
with one registered device, a second unregister appends a second
disconnect event, so unregistering twice differs from unregistering once. -/
theorem unregister_twice_differs_from_once :
    Hub.unregister (Hub.unregister ⟨[("d", 0)], [("d", ⟨"d", "u", "n", "v", 0, 0⟩)], [], none⟩ 1 "d") 2 "d" ≠
      Hub.unregister ⟨[("d", 0)], [("d", ⟨"d", "u", "n", "v", 0, 0⟩)], [], none⟩ 1 "d" := by
  decide

/-- **C7**.  A dispatched step carries its own effective pacing: when the
step at the cursor lacks an explicit timer_s the default 8 s is written
into the copy handed to the dispatch function, and the single-shot timer
scheduled for the next dispatch is derived from this step's own effective
timer_s (explicit value, or the default when absent) — it depends only on
the step at the current cursor, never on the following step. -/
theorem step_pacing_uses_own_timer (s : SRState) (step0 : Step)
    (hp : s.paused = false) (ha : s.active = true)
    (hstep : s.steps[s.i]? = some step0) :
    (s.run_next_step).2 = some (withEffectiveTimer step0) ∧
    (step0.timer_s = none →
      withEffectiveTimer step0 = { step0 with timer_s := some 8 }) ∧
    (s.run_next_step).1.timer = some (delayMsOf (effTimer step0)) ∧
    effTimer step0 = step0.timer_s.getD 8 ∧
    (s.run_next_step).1.i = s.i + 1 ∧
    (s.run_next_step).1.steps = s.steps := by
  obtain ⟨hi, hget⟩ := List.getElem?_eq_some.mp hstep
  have hrun : s.run_next_step =
      ({ s with i := s.i + 1, timer := some (delayMsOf (effTimer step0)) },
        some (withEffectiveTimer step0)) := by
    unfold SRState.run_next_step
    rw [if_neg (by simp [hp]), if_neg (by simp [ha]),
      dif_neg (by omega)]
    simp [hget]
  refine ⟨by rw [hrun], ?_, by rw [hrun], ?_, by rw [hrun], by rw [hrun]⟩
  · intro hnone
    unfold withEffectiveTimer
    rw [hnone]
    norm_num [DEFAULT_SESSION_TIMER_MS]
  · unfold effTimer
    norm_num [DEFAULT_SESSION_TIMER_MS]

/-- Witness for C7: the spec's own example.  Steps A (no timer) and
B (timer 0.1 s): A is dispatched as a copy carrying timer_s = 8 and the
next dispatch is scheduled 8000 ms later — A's own pacing, not B's. -/
theorem step_pacing_uses_own_timer_witness :
    let s0 : SRState :=
      { active := true, paused := false, session_id := some "sess",
        steps := [⟨"A", none⟩, ⟨"B", some (1/10)⟩], i := 0, timer := none }
    s0.paused = false ∧ s0.active = true ∧
      s0.steps[s0.i]? = some ⟨"A", none⟩ ∧
      ((s0.run_next_step).2 = some (withEffectiveTimer ⟨"A", none⟩) ∧
       ((⟨"A", none⟩ : Step).timer_s = none →
         withEffectiveTimer ⟨"A", none⟩ = { (⟨"A", none⟩ : Step) with timer_s := some 8 }) ∧
       (s0.run_next_step).1.timer = some (delayMsOf (effTimer ⟨"A", none⟩)) ∧
       effTimer (⟨"A", none⟩ : Step) = (⟨"A", none⟩ : Step).timer_s.getD 8 ∧
       (s0.run_next_step).1.i = s0.i + 1 ∧
       (s0.run_next_step).1.steps = s0.steps) := by
  refine ⟨rfl, rfl, rfl, ?_⟩
  exact step_pacing_uses_own_timer _ _ rfl rfl rfl

/-- **C8**.  pause() stops the pacing timer and leaves cursor and steps
untouched, and even a stray timeout delivered while paused dispatches
nothing and changes nothing; resume() on an active session restarts the
single-shot timer with a zero delay, and its firing immediately dispatches
the step at the unchanged cursor. -/
theorem pause_resume_immediate (s : SRState) (step0 : Step)
    (ha : s.active = true) (hstep : s.steps[s.i]? = some step0) :
    (s.pause).i = s.i ∧ (s.pause).steps = s.steps ∧
    (s.pause).timer = none ∧
    (s.pause).run_next_step = (s.pause, none) ∧
    ((s.pause).resume).timer = some 0 ∧
    ((s.pause).resume).i = s.i ∧
    (((s.pause).resume).fireTimer).2 = some (withEffectiveTimer step0) ∧
    (((s.pause).resume).fireTimer).1.i = s.i + 1 := by
  have hres : (s.pause).resume = { s with paused := false, timer := some 0 } := by
    unfold SRState.pause SRState.resume
    simp [ha]
  have hpause_run : (s.pause).run_next_step = (s.pause, none) := by
    unfold SRState.run_next_step SRState.pause
    simp
  obtain ⟨hi, hget⟩ := List.getElem?_eq_some.mp hstep
  have hfire : (((s.pause).resume).fireTimer) =
      ({ s with
          paused := false
          i := s.i + 1
          timer := some (delayMsOf (effTimer step0)) },
        some (withEffectiveTimer step0)) := by
    rw [hres]
    unfold SRState.fireTimer SRState.run_next_step
    rw [if_neg (by simp), if_neg (by simp [ha]), dif_neg (by simp; omega)]
    simp [hget]
  refine ⟨by simp [SRState.pause], by simp [SRState.pause],
    by simp [SRState.pause], hpause_run, by rw [hres], by rw [hres],
    by rw [hfire], by rw [hfire]⟩

/-- **C6** (amended).  Hub.unregister always removes the connection entry;
it is a full no-op only when deviceId is absent from both maps.  When
deviceId is present in the devices map, every call — including a repeated
one — appends a disconnect LogEvent: a second unregister leaves the
connections and devices maps as after one call but appends one more
disconnect event to the log. -/
theorem unregister_appends_per_known_device (h : Hub) (did : String)
    (now now2 : Nat) :
    (h.devices.lookup did = none → h.connections.lookup did = none →
      h.unregister now did = h) ∧
    (h.devices.lookup did = none →
      (h.unregister now did).devices = h.devices ∧
      (h.unregister now did).logs = h.logs) ∧
    (∀ dev, h.devices.lookup did = some dev →
      (h.unregister now did).unregister now2 did =
        { h.unregister now did with
          logs := appendBounded (h.unregister now did).logs
            { ts := now2, device_id := did, event := "disconnect",
              detail := dev.username ++ " @ " ++ dev.device_name,
              command_id := "-" } }) := by
  have hnone : ∀ h1 : h.devices.lookup did = none,
      h.unregister now did = { h with connections := dictPop h.connections did } := by
    intro h1
    unfold Hub.unregister
    rw [h1]
  refine ⟨?_, ?_, ?_⟩
  · intro h1 h2
    rw [hnone h1, lookup_none_dictPop _ _ h2]
  · intro h1
    rw [hnone h1]
    exact ⟨rfl, rfl⟩
  · intro dev hdev
    have hd2 : (h.unregister now did).devices.lookup did = some dev := by
      rw [hub_unregister_devices]
      exact hdev
    have hc : dictPop (h.unregister now did).connections did =
        (h.unregister now did).connections := by
      rw [hub_unregister_connections, dictPop_idem]
    rw [hub_unregister_some _ _ _ _ hd2, hc]

/-- Witness for C6 (amended): the no-op case on the empty hub and the
double-unregister case on a hub with one registered device. -/
theorem unregister_appends_per_known_device_witness :
    (Hub.empty.devices.lookup "x" = none ∧
     Hub.empty.connections.lookup "x" = none ∧
     Hub.empty.unregister 0 "x" = Hub.empty) ∧
    ((⟨[("d", 0)], [("d", ⟨"d", "u", "n", "v", 0, 0⟩)], [], none⟩ :
        Hub).devices.lookup "d" = some ⟨"d", "u", "n", "v", 0, 0⟩ ∧
     ((⟨[("d", 0)], [("d", ⟨"d", "u", "n", "v", 0, 0⟩)], [], none⟩ :
          Hub).unregister 1 "d").unregister 2 "d" =
       { (⟨[("d", 0)], [("d", ⟨"d", "u", "n", "v", 0, 0⟩)], [], none⟩ :
            Hub).unregister 1 "d" with
         logs := appendBounded
           ((⟨[("d", 0)], [("d", ⟨"d", "u", "n", "v", 0, 0⟩)], [], none⟩ :
              Hub).unregister 1 "d").logs
           { ts := 2, device_id := "d", event := "disconnect",
             detail := "u" ++ " @ " ++ "n", command_id := "-" } }) := by
  constructor
  · exact ⟨rfl, rfl,
      (unregister_appends_per_known_device Hub.empty "x" 0 0).1 rfl rfl⟩
  · exact ⟨rfl,
      (unregister_appends_per_known_device _ "d" 1 2).2.2
        ⟨"d", "u", "n", "v", 0, 0⟩ rfl⟩

/-- **C9**.  The hub event log is bounded: starting from a log within the
1000-entry bound, register, unregister, log and handle_ack all preserve
the bound, and when the log is exactly full an append evicts the oldest
entry first. -/
theorem hub_log_ring_bounded (h : Hub) (now : Nat) (d : DeviceInfo) (ws : Nat)
    (did ev det cid : String) (msg : AckMsg)
    (hlen : h.logs.length ≤ MAX_LOG_EVENTS) :
    (h.register now d ws).logs.length ≤ MAX_LOG_EVENTS ∧
    (h.unregister now did).logs.length ≤ MAX_LOG_EVENTS ∧
    (h.log now did ev det cid).logs.length ≤ MAX_LOG_EVENTS ∧
    (h.handle_ack now did msg).logs.length ≤ MAX_LOG_EVENTS ∧
    (h.logs.length = MAX_LOG_EVENTS →
      (h.log now did ev det cid).logs =
        h.logs.drop 1 ++ [⟨now, did, ev, det, cid⟩]) := by
  refine ⟨?_, ?_, ?_, ?_, ?_⟩
  · exact appendBounded_length_le _ _ hlen
  · unfold Hub.unregister
    split
    · exact appendBounded_length_le _ _ hlen
    · exact hlen
  · rw [hub_log_logs]
    exact appendBounded_length_le _ _ hlen
  · unfold Hub.handle_ack
    rw [hub_log_logs]
    exact appendBounded_length_le _ _ hlen
  · intro hfull
    rw [hub_log_logs]
    exact appendBounded_full _ _ hfull

/-- Witness for C9 at the empty hub. -/
theorem hub_log_ring_bounded_witness :
    Hub.empty.logs.length ≤ MAX_LOG_EVENTS ∧
    ((Hub.empty.register 0 ⟨"d", "u", "n", "v", 0, 0⟩ 0).logs.length ≤
        MAX_LOG_EVENTS ∧
     (Hub.empty.unregister 0 "d").logs.length ≤ MAX_LOG_EVENTS ∧
     (Hub.empty.log 0 "d" "sent" "" "-").logs.length ≤ MAX_LOG_EVENTS ∧
     (Hub.empty.handle_ack 0 "d" ⟨none, none, none⟩).logs.length ≤
        MAX_LOG_EVENTS ∧
     (Hub.empty.logs.length = MAX_LOG_EVENTS →
       (Hub.empty.log 0 "d" "sent" "" "-").logs =
         Hub.empty.logs.drop 1 ++ [⟨0, "d", "sent", "", "-"⟩])) :=
  ⟨Nat.zero_le _,
   hub_log_ring_bounded Hub.empty 0 ⟨"d", "u", "n", "v", 0, 0⟩ 0 "d" "sent"
     "" "-" ⟨none, none, none⟩ (Nat.zero_le _)⟩

/-- **C10**.  Hub.unregister removes only the connection entry: the devices
map is untouched, and no hub operation (register, unregister,
update_last_seen, log, handle_ack) ever removes a devices-map entry; after
a disconnect the device is still present in the get_devices listing with
online = false. -/
theorem hub_device_entry_persists (h : Hub) (did : String) (dev : DeviceInfo)
    (now now2 : Nat) (d : DeviceInfo) (ws : Nat) (did2 ev det cid : String)
    (msg : AckMsg) (hdev : h.devices.lookup did = some dev)
    (hk : dev.device_id = did) :
    (h.unregister now did).devices = h.devices ∧
    (h.unregister now did).connections = dictPop h.connections did ∧
    ((h.register now2 d ws).devices.lookup did).isSome ∧
    ((h.unregister now2 did2).devices.lookup did).isSome ∧
    ((h.update_last_seen now2 did2).devices.lookup did).isSome ∧
    ((h.log now2 did2 ev det cid).devices.lookup did).isSome ∧
    ((h.handle_ack now2 did2 msg).devices.lookup did).isSome ∧
    (⟨dev.device_id, dev.username, dev.device_name, dev.version,
      dev.connected_at, dev.last_seen, false⟩ : DeviceItem) ∈
      get_devices (h.unregister now did) := by
  have hsome : (h.devices.lookup did).isSome := by
    rw [hdev]; rfl
  refine ⟨hub_unregister_devices h now did,
    hub_unregister_connections h now did, ?_, ?_, ?_, ?_, ?_, ?_⟩
  · exact lookup_dictSet_isSome _ _ _ _ hsome
  · rw [hub_unregister_devices, hdev]; rfl
  · show ((h.devices.map fun p =>
        if p.1 == did2 then (p.1, { p.2 with last_seen := now2 }) else p).lookup
      did).isSome
    rw [lookup_map_touch, hdev]; rfl
  · rw [hub_log_devices, hdev]; rfl
  · unfold Hub.handle_ack
    rw [hub_log_devices, hdev]; rfl
  · unfold get_devices
    refine (List.mergeSort_perm _ _).mem_iff.mpr ?_
    refine List.mem_map.mpr ⟨(did, dev), ?_, ?_⟩
    · rw [hub_unregister_devices]
      exact lookup_mem hdev
    · rw [hub_unregister_connections, hk, lookup_dictPop_self]
      rfl

/-- Witness for C10 on a hub with one registered device. -/
theorem hub_device_entry_persists_witness :
    (⟨[("d", 7)], [("d", ⟨"d", "u", "n", "v", 0, 0⟩)], [], none⟩ :
        Hub).devices.lookup "d" = some ⟨"d", "u", "n", "v", 0, 0⟩ ∧
    (DeviceInfo.device_id ⟨"d", "u", "n", "v", 0, 0⟩ = "d") ∧
    (((⟨[("d", 7)], [("d", ⟨"d", "u", "n", "v", 0, 0⟩)], [], none⟩ :
        Hub).unregister 1 "d").devices =
      (⟨[("d", 7)], [("d", ⟨"d", "u", "n", "v", 0, 0⟩)], [], none⟩ :
        Hub).devices ∧
     ((⟨[("d", 7)], [("d", ⟨"d", "u", "n", "v", 0, 0⟩)], [], none⟩ :
        Hub).unregister 1 "d").connections =
      dictPop (⟨[("d", 7)], [("d", ⟨"d", "u", "n", "v", 0, 0⟩)], [], none⟩ :
        Hub).connections "d" ∧
     (((⟨[("d", 7)], [("d", ⟨"d", "u", "n", "v", 0, 0⟩)], [], none⟩ :
        Hub).register 2 ⟨"e", "u2", "n2", "v", 2, 2⟩ 9).devices.lookup
        "d").isSome ∧
     (((⟨[("d", 7)], [("d", ⟨"d", "u", "n", "v", 0, 0⟩)], [], none⟩ :
        Hub).unregister 2 "d").devices.lookup "d").isSome ∧
     (((⟨[("d", 7)], [("d", ⟨"d", "u", "n", "v", 0, 0⟩)], [], none⟩ :
        Hub).update_last_seen 2 "d").devices.lookup "d").isSome ∧
     (((⟨[("d", 7)], [("d", ⟨"d", "u", "n", "v", 0, 0⟩)], [], none⟩ :
        Hub).log 2 "d" "sent" "" "-").devices.lookup "d").isSome ∧
     (((⟨[("d", 7)], [("d", ⟨"d", "u", "n", "v", 0, 0⟩)], [], none⟩ :
        Hub).handle_ack 2 "d" ⟨none, none, none⟩).devices.lookup
        "d").isSome ∧
     (⟨"d", "u", "n", "v", 0, 0, false⟩ : DeviceItem) ∈
       get_devices ((⟨[("d", 7)], [("d", ⟨"d", "u", "n", "v", 0, 0⟩)], [],
          none⟩ : Hub).unregister 1 "d")) := by
  refine ⟨rfl, rfl, ?_⟩
  exact hub_device_entry_persists _ "d" ⟨"d", "u", "n", "v", 0, 0⟩ 1 2
    ⟨"e", "u2", "n2", "v", 2, 2⟩ 9 "d" "sent" "" "-" ⟨none, none, none⟩
    rfl rfl

/-- Witness for C8 at a concrete mid-session state: cursor 1 of a
two-step session. -/
theorem pause_resume_immediate_witness :
    let s1 : SRState :=
      { active := true, paused := false, session_id := some "sess",
        steps := [⟨"A", none⟩, ⟨"B", some (1/10)⟩], i := 1, timer := some 8000 }
    s1.active = true ∧ s1.steps[s1.i]? = some ⟨"B", some (1/10)⟩ ∧
      ((s1.pause).i = s1.i ∧ (s1.pause).steps = s1.steps ∧
       (s1.pause).timer = none ∧
       (s1.pause).run_next_step = (s1.pause, none) ∧
       ((s1.pause).resume).timer = some 0 ∧
       ((s1.pause).resume).i = s1.i ∧
       (((s1.pause).resume).fireTimer).2 = some (withEffectiveTimer ⟨"B", some (1/10)⟩) ∧
       (((s1.pause).resume).fireTimer).1.i = s1.i + 1) := by
  refine ⟨rfl, rfl, ?_⟩
  exact pause_resume_immediate _ _ rfl rfl

end LMI
